import Mathlib

/-!
Shallow embedding of the PDF_Analyser backend (src/Backend/backend/main.py and
src/Backend/backend/Mock.py) and proofs about its orchestration contract.

The two Python files are near-duplicate FastAPI services.  Pure logic (extension
dispatch, validation order, state updates, error mapping) is translated directly;
the external capabilities (text extraction, chunking, FAISS index build, LLM
pipeline construction, answer generation, JWT decoding) are modelled as oracles
recording only success/failure and opaque payloads, since the spec declares their
internals out of scope.
-/

set_option linter.unusedVariables false

/-! ## Filename extension machinery

Python computes `file_path.split(".")[-1].lower()`.  `splitOnDot` is a faithful
embedding of `str.split(".")` on the character list (it always returns a
non-empty list; splitting a dotless string returns the whole string as the one
segment), `pyLast` is the `[-1]` subscript, and `lowerChars` is `str.lower`
restricted to ASCII case mapping. -/

def splitOnDot : List Char → List (List Char)
  | [] => [[]]
  | c :: rest =>
    match splitOnDot rest with
    | [] => [[c]]
    | s :: ss => if c = '.' then [] :: s :: ss else (c :: s) :: ss

def pyLast : List (List Char) → List Char
  | [] => []
  | [s] => s
  | _ :: s :: ss => pyLast (s :: ss)

def lowerChars (l : List Char) : List Char := l.map Char.toLower

/-- Embedding of `file_path.split(".")[-1].lower()` (main.py line 33, Mock.py
line 85). -/
def file_extension (file_path : String) : String :=
  String.mk (lowerChars (pyLast (splitOnDot file_path.data)))

/-- The opaque extraction capabilities selected by `get_loader_for_file`:
PyPDFLoader, Docx2txtLoader, TextLoader, CSVLoader. -/
inductive Extractor where
  | pdfExtractor
  | wordExtractor
  | textExtractor
  | csvExtractor
deriving DecidableEq

/-- Embedding of `get_loader_for_file` (main.py lines 32-43, Mock.py lines
84-95, identical in both variants): dispatch on the lowercased substring after
the final dot; unknown extensions raise `ValueError` with a message naming the
offending extension, modelled as `Except.error`. -/
def get_loader_for_file (file_path : String) : Except String Extractor :=
  if file_extension file_path = "pdf" then .ok .pdfExtractor
  else if file_extension file_path = "docx" ∨ file_extension file_path = "doc" then .ok .wordExtractor
  else if file_extension file_path = "txt" then .ok .textExtractor
  else if file_extension file_path = "csv" then .ok .csvExtractor
  else .error ("Unsupported file format: " ++ file_extension file_path)

/-! ### Lemmas about `splitOnDot` -/

theorem splitOnDot_ne_nil (l : List Char) : splitOnDot l ≠ [] := by
  cases l with
  | nil => simp [splitOnDot]
  | cons c rest =>
    unfold splitOnDot
    cases h : splitOnDot rest with
    | nil => simp
    | cons s ss =>
      by_cases hc : c = '.' <;> simp [hc]

theorem splitOnDot_no_dot (l : List Char) (h : '.' ∉ l) : splitOnDot l = [l] := by
  induction l with
  | nil => rfl
  | cons c rest ih =>
    have hc : c ≠ '.' := fun hc => h (hc ▸ List.mem_cons_self c rest)
    have hr : '.' ∉ rest := fun hr => h (List.mem_cons_of_mem c hr)
    unfold splitOnDot
    rw [ih hr]
    simp [hc]

theorem two_le_splitOnDot_length (l : List Char) (h : '.' ∈ l) :
    2 ≤ (splitOnDot l).length := by
  induction l with
  | nil => cases h
  | cons c rest ih =>
    unfold splitOnDot
    cases hs : splitOnDot rest with
    | nil => exact absurd hs (splitOnDot_ne_nil rest)
    | cons s ss =>
      by_cases hc : c = '.'
      · simp [hc]
      · have hr : '.' ∈ rest := by
          rcases List.mem_cons.mp h with h1 | h2
          · exact absurd h1.symm hc
          · exact h2
        have := ih hr
        rw [hs] at this
        simp at this
        simp [hc]
        omega

theorem splitOnDot_append (a b : List Char) (ha : '.' ∉ a) :
    ∃ h t, splitOnDot b = h :: t ∧ splitOnDot (a ++ b) = (a ++ h) :: t := by
  induction a with
  | nil =>
    cases hb : splitOnDot b with
    | nil => exact absurd hb (splitOnDot_ne_nil b)
    | cons h t => exact ⟨h, t, rfl, by simp [hb]⟩
  | cons c a ih =>
    have hc : c ≠ '.' := fun hc => ha (hc ▸ List.mem_cons_self c a)
    have ha2 : '.' ∉ a := fun hr => ha (List.mem_cons_of_mem c hr)
    obtain ⟨h, t, hb, hab⟩ := ih ha2
    refine ⟨h, t, hb, ?_⟩
    show splitOnDot (c :: (a ++ b)) = ((c :: a) ++ h) :: t
    unfold splitOnDot
    rw [hab]
    simp [hc]

theorem pyLast_cons_of_ne_nil (x : List Char) (l : List (List Char)) (h : l ≠ []) :
    pyLast (x :: l) = pyLast l := by
  cases l with
  | nil => exact absurd rfl h
  | cons s ss => rfl

/-- Prefixing a dot-free directory path does not change the computed extension
of a filename that contains a dot.  This connects `get_loader_for_file`
applied to `os.path.join(UPLOAD_DIR, filename)` with the extension of the
bare filename. -/
theorem file_extension_append (a b : String) (ha : '.' ∉ a.data) (hb : '.' ∈ b.data) :
    file_extension (a ++ b) = file_extension b := by
  unfold file_extension
  obtain ⟨h, t, hsb, hsab⟩ := splitOnDot_append a.data b.data ha
  have ht : t ≠ [] := by
    have h2 := two_le_splitOnDot_length b.data hb
    rw [hsb] at h2
    simp at h2
    intro hnil
    rw [hnil] at h2
    simp at h2
  have hdata : (a ++ b).data = a.data ++ b.data := by
    simp [String.data_append]
  rw [hdata, hsab, hsb]
  rw [pyLast_cons_of_ne_nil _ _ ht, pyLast_cons_of_ne_nil _ _ ht]

theorem file_extension_no_dot (s : String) (h : '.' ∉ s.data) :
    file_extension s = String.mk (lowerChars s.data) := by
  unfold file_extension
  rw [splitOnDot_no_dot s.data h]
  rfl

/-! ## HTTP errors and Session State -/

/-- An `HTTPException(status_code, detail)`. -/
structure HTTPError where
  status_code : Nat
  detail : String
deriving DecidableEq

/-- The process-wide Session State: module globals `vector_store` and
`qa_chain` (main.py lines 56-57, Mock.py lines 103-104).  The external FAISS
index and ConversationalRetrievalChain objects are opaque; we track them as
numeric build identifiers so that distinct builds are distinguishable. -/
structure SessionState where
  vector_store : Option Nat
  qa_chain : Option Nat
deriving DecidableEq

/-- Both globals start as `None`. -/
def initial_state : SessionState := ⟨none, none⟩

/-! ## Upload

The save step, extraction (`loader.load()`), chunking
(`text_splitter.split_documents`), index build (`FAISS.from_documents`) and
pipeline construction (`ChatOpenAI` + `ConversationalRetrievalChain.from_llm`)
are external calls; `UploadEnv` is an oracle recording whether each succeeds
and the message of the exception when one fails.  The file save is modelled as
succeeding (it precedes all the failure points the claims are about), so the
temporary file is on disk when the `finally` block runs. -/

structure UploadEnv where
  extract_ok : Bool
  chunk_ok : Bool
  index_ok : Bool
  pipeline_ok : Bool
  err_msg : String
deriving DecidableEq

/-- Result of one upload request: the HTTP response, the Session State after
the request, whether the staged temporary file is still present afterwards,
and whether the cleanup step itself raised. -/
structure UploadResult where
  response : Except HTTPError String
  state : SessionState
  file_present : Bool
  cleanup_raised : Bool

/-- The `finally` block of main.py `upload_file` (lines 111-115): remove the
file only if it exists.  Returns (file still present, cleanup raised); the
guarded remove never raises. -/
def cleanup_main (file_on_disk : Bool) : Bool × Bool :=
  if file_on_disk then (false, false) else (false, false)

/-- The `finally` block of Mock.py `upload_file` (lines 152-154): an unguarded
`os.remove`, which raises `FileNotFoundError` when the file is absent. -/
def cleanup_mock (file_on_disk : Bool) : Bool × Bool :=
  if file_on_disk then (false, false) else (false, true)

def finishMain (resp : Except HTTPError String) (st : SessionState) : UploadResult :=
  ⟨resp, st, (cleanup_main true).1, (cleanup_main true).2⟩

def finishMock (resp : Except HTTPError String) (st : SessionState) : UploadResult :=
  ⟨resp, st, (cleanup_mock true).1, (cleanup_mock true).2⟩

/-- Embedding of `upload_file` in main.py (lines 59-115).  The staged path is
`os.path.join("uploads", filename)`, modelled as string concatenation (exact
for relative filenames).  The `except ValueError` arm maps the loader error to
400 with the raw message; `except Exception` maps other failures to 500 with
the message prefixed by "Internal Server Error: ".  Crucially, line 88 assigns
the global `vector_store` before lines 92-101 construct the new `qa_chain`, so
a pipeline-construction failure leaves the state half replaced.  `newIndex`
and `newChain` are the identities of the index and pipeline this request would
build. -/
def upload_file_main (filename : String) (env : UploadEnv) (st : SessionState)
    (newIndex : Nat) (newChain : Nat) : UploadResult :=
  match get_loader_for_file ("uploads/" ++ filename) with
  | .error e => finishMain (.error ⟨400, e⟩) st
  | .ok _ =>
    if env.extract_ok = false then
      finishMain (.error ⟨500, "Internal Server Error: " ++ env.err_msg⟩) st
    else if env.chunk_ok = false then
      finishMain (.error ⟨500, "Internal Server Error: " ++ env.err_msg⟩) st
    else if env.index_ok = false then
      finishMain (.error ⟨500, "Internal Server Error: " ++ env.err_msg⟩) st
    else
      if env.pipeline_ok = false then
        finishMain (.error ⟨500, "Internal Server Error: " ++ env.err_msg⟩)
          { st with vector_store := some newIndex }
      else
        finishMain (.ok "File processed successfully") ⟨some newIndex, some newChain⟩

/-- Embedding of `upload_file` in Mock.py (lines 115-154).  Same pipeline, but
every exception (including the unsupported-format `ValueError`) is caught by
the single `except Exception` arm and mapped to 500 with the raw message. -/
def upload_file_mock (filename : String) (env : UploadEnv) (st : SessionState)
    (newIndex : Nat) (newChain : Nat) : UploadResult :=
  match get_loader_for_file ("uploads/" ++ filename) with
  | .error e => finishMock (.error ⟨500, e⟩) st
  | .ok _ =>
    if env.extract_ok = false then
      finishMock (.error ⟨500, env.err_msg⟩) st
    else if env.chunk_ok = false then
      finishMock (.error ⟨500, env.err_msg⟩) st
    else if env.index_ok = false then
      finishMock (.error ⟨500, env.err_msg⟩) st
    else
      if env.pipeline_ok = false then
        finishMock (.error ⟨500, env.err_msg⟩)
          { st with vector_store := some newIndex }
      else
        finishMock (.ok "File processed successfully") ⟨some newIndex, some newChain⟩

/-! ## Ask -/

/-- Oracle for the `qa_chain(...)` call: whether it succeeds, and the answer,
retrieved context and error message it would produce. -/
structure AskEnv where
  chain_ok : Bool
  answer : String
  context : List String
  err_msg : String
deriving DecidableEq

/-- ASCII whitespace as recognised by Python `str.strip()`. -/
def isSpaceChar (c : Char) : Bool :=
  c = ' ' ∨ c = '\t' ∨ c = '\n' ∨ c = '\r' ∨ c = '\x0b' ∨ c = '\x0c'

/-- Embedding of Python `question.strip()`. -/
def strip_chars (l : List Char) : List Char :=
  ((l.dropWhile isSpaceChar).reverse.dropWhile isSpaceChar).reverse

def pyStrip (s : String) : String := String.mk (strip_chars s.data)

/-- Embedding of `ask_question` in main.py (lines 117-142): first the
not-ready check on the globals (`if not vector_store or not qa_chain`, 400),
then the empty-question check (`if not question.strip()`, 422), then the
chain call with failures mapped to 500. -/
def ask_question_main (question : String) (st : SessionState) (env : AskEnv) :
    Except HTTPError (String × List String) :=
  if st.vector_store = none ∨ st.qa_chain = none then
    .error ⟨400, "No document has been uploaded yet"⟩
  else if pyStrip question = "" then
    .error ⟨422, "Question cannot be empty"⟩
  else if env.chain_ok then .ok (env.answer, env.context)
  else .error ⟨500, "Internal Server Error: " ++ env.err_msg⟩

/-- Embedding of `ask_question` in Mock.py (lines 156-179): the not-ready
check, then the chain call (passing the caller-supplied chat history); there
is no emptiness check on the question in this variant. -/
def ask_question_mock (question : String) (chat_history : List (String × String))
    (st : SessionState) (env : AskEnv) : Except HTTPError (String × List String) :=
  if st.vector_store = none ∨ st.qa_chain = none then
    .error ⟨400, "No document has been uploaded yet"⟩
  else if env.chain_ok then .ok (env.answer, env.context)
  else .error ⟨500, env.err_msg⟩

/-! ## Auth Gate (Mock.py only) -/

/-- The fixed in-memory user table `users_db` (Mock.py lines 51-56), as an
association list from username to the stored `hashed_password` field. -/
def users_db : List (String × String) := [("admin", "hashed_admin_password")]

structure TokenResponse where
  access_token : String
  token_type : String
deriving DecidableEq

/-- Embedding of `login` (Mock.py lines 107-113): look the username up in
`users_db`; unknown username fails with 400; otherwise a token is issued via
`create_access_token` (external JWT encoding, abstracted as the opaque string
`tok`).  Note the function receives `form_data.password` but the source never
reads it: the binder is present for fidelity and is unused, exactly as in the
code. -/
def login (username : String) (password : String) (tok : String) :
    Except HTTPError TokenResponse :=
  match users_db.lookup username with
  | none => .error ⟨400, "Incorrect username or password"⟩
  | some _ => .ok ⟨tok, "bearer"⟩

/-- Outcome of the external `jwt.decode(token, SECRET_KEY, ...)` call
(Mock.py line 70).  `decodeError` covers every exception the decoder raises:
bad or unverifiable signature, malformed token, and expired token (the `exp`
claim is checked inside `jwt.decode` itself).  `payload sub` is a successful
decode whose `"sub"` claim is `sub` (`none` when the claim is missing). -/
inductive DecodeResult where
  | decodeError
  | payload (sub : Option String)
deriving DecidableEq

/-- Embedding of `get_current_user` (Mock.py lines 68-78): decode failure is
caught and mapped to 401; a missing `"sub"` claim is 401; a subject that is
not in `users_db` is 401; otherwise the user is returned. -/
def get_current_user (d : DecodeResult) : Except HTTPError String :=
  match d with
  | .decodeError => .error ⟨401, "Invalid authentication credentials"⟩
  | .payload none => .error ⟨401, "Invalid authentication credentials"⟩
  | .payload (some username) =>
    match users_db.lookup username with
    | none => .error ⟨401, "User not found"⟩
    | some _ => .ok username

/-- A response is a uniform authentication failure when it is an error with
status 401. -/
def isAuthError (r : Except HTTPError String) : Bool :=
  match r with
  | .error e => e.status_code = 401
  | .ok _ => false

/-! ## API-key startup check -/

/-- Embedding of main.py line 47: `openai_api_key = ""`.  The right-hand side
in the source is the string literal `""`; the process environment (modelled as
the optional value of the OPENAI_API_KEY variable) is never consulted, so the
function ignores its argument exactly as the source ignores the environment. -/
def openai_api_key_main (env_value : Option String) : String := ""

/-- Embedding of Mock.py line 98: `openai_api_key = ""`, likewise ignoring the
environment. -/
def openai_api_key_mock (env_value : Option String) : String := ""

/-- Embedding of the module-level startup guard of main.py (lines 48-49):
`if not openai_api_key: raise RuntimeError(...)` runs at import time, so an
error here means the process fails to start. -/
def startup_main (env_value : Option String) : Except String Unit :=
  if openai_api_key_main env_value = "" then
    .error "Please set a valid OpenAI API key"
  else .ok ()

/-- Embedding of the module-level startup guard of Mock.py (lines 99-100). -/
def startup_mock (env_value : Option String) : Except String Unit :=
  if openai_api_key_mock env_value = "" then
    .error "OPENAI_API_KEY environment variable is not set"
  else .ok ()

/-! ## Chunker configuration

The chunker itself is the external `RecursiveCharacterTextSplitter`; the
repository only fixes its parameters (main.py lines 79-83, Mock.py lines
130-134). -/

def chunk_size : Nat := 1000

def chunk_overlap : Nat := 200

/-! ## Helper lemmas about the upload functions -/

theorem exists_finishMain (filename : String) (env : UploadEnv) (st : SessionState)
    (ni nc : Nat) : ∃ r s, upload_file_main filename env st ni nc = finishMain r s := by
  unfold upload_file_main
  split
  · exact ⟨_, _, rfl⟩
  · split_ifs <;> exact ⟨_, _, rfl⟩

theorem exists_finishMock (filename : String) (env : UploadEnv) (st : SessionState)
    (ni nc : Nat) : ∃ r s, upload_file_mock filename env st ni nc = finishMock r s := by
  unfold upload_file_mock
  split
  · exact ⟨_, _, rfl⟩
  · split_ifs <;> exact ⟨_, _, rfl⟩

theorem state_main_untouched (filename : String) (env : UploadEnv) (st : SessionState)
    (ni nc : Nat)
    (h : env.extract_ok = false ∨ env.chunk_ok = false ∨ env.index_ok = false ∨
         ∃ e, get_loader_for_file ("uploads/" ++ filename) = .error e) :
    (upload_file_main filename env st ni nc).state = st := by
  obtain ⟨eo, co, io, po, msg⟩ := env
  unfold upload_file_main
  cases eo <;> cases co <;> cases io <;> cases po <;>
    split <;> simp_all [finishMain]

theorem state_mock_untouched (filename : String) (env : UploadEnv) (st : SessionState)
    (ni nc : Nat)
    (h : env.extract_ok = false ∨ env.chunk_ok = false ∨ env.index_ok = false ∨
         ∃ e, get_loader_for_file ("uploads/" ++ filename) = .error e) :
    (upload_file_mock filename env st ni nc).state = st := by
  obtain ⟨eo, co, io, po, msg⟩ := env
  unfold upload_file_mock
  cases eo <;> cases co <;> cases io <;> cases po <;>
    split <;> simp_all [finishMock]

theorem state_main_half_built (filename : String) (env : UploadEnv) (st : SessionState)
    (ni nc : Nat) (x : Extractor)
    (hl : get_loader_for_file ("uploads/" ++ filename) = .ok x)
    (he : env.extract_ok = true) (hc : env.chunk_ok = true) (hi : env.index_ok = true)
    (hp : env.pipeline_ok = false) :
    (upload_file_main filename env st ni nc).state = ⟨some ni, st.qa_chain⟩ := by
  unfold upload_file_main
  split
  next e heq => rw [hl] at heq; cases heq
  next y heq => simp [he, hc, hi, hp, finishMain]

theorem state_mock_half_built (filename : String) (env : UploadEnv) (st : SessionState)
    (ni nc : Nat) (x : Extractor)
    (hl : get_loader_for_file ("uploads/" ++ filename) = .ok x)
    (he : env.extract_ok = true) (hc : env.chunk_ok = true) (hi : env.index_ok = true)
    (hp : env.pipeline_ok = false) :
    (upload_file_mock filename env st ni nc).state = ⟨some ni, st.qa_chain⟩ := by
  unfold upload_file_mock
  split
  next e heq => rw [hl] at heq; cases heq
  next y heq => simp [he, hc, hi, hp, finishMock]

theorem state_main_new_pair (filename : String) (env : UploadEnv) (st : SessionState)
    (ni nc : Nat) (x : Extractor)
    (hl : get_loader_for_file ("uploads/" ++ filename) = .ok x)
    (he : env.extract_ok = true) (hc : env.chunk_ok = true) (hi : env.index_ok = true)
    (hp : env.pipeline_ok = true) :
    (upload_file_main filename env st ni nc).state = ⟨some ni, some nc⟩ := by
  unfold upload_file_main
  split
  next e heq => rw [hl] at heq; cases heq
  next y heq => simp [he, hc, hi, hp, finishMain]

theorem state_mock_new_pair (filename : String) (env : UploadEnv) (st : SessionState)
    (ni nc : Nat) (x : Extractor)
    (hl : get_loader_for_file ("uploads/" ++ filename) = .ok x)
    (he : env.extract_ok = true) (hc : env.chunk_ok = true) (hi : env.index_ok = true)
    (hp : env.pipeline_ok = true) :
    (upload_file_mock filename env st ni nc).state = ⟨some ni, some nc⟩ := by
  unfold upload_file_mock
  split
  next e heq => rw [hl] at heq; cases heq
  next y heq => simp [he, hc, hi, hp, finishMock]

/-! ## Claim theorems -/

/-- C1 counterexample: the claim says an empty or whitespace-only question
always fails with the 422 validation error, independent of index state.  It
is false at a concrete input in both directions: in the auth variant
(Mock.py) an empty question with a built index is passed straight to the
chain and succeeds, and in main.py an empty question with no index fails
with 400, not 422. -/
theorem C1_counterexample :
    ask_question_mock "" [] ⟨some 0, some 0⟩ ⟨true, "an answer", ["a chunk"], ""⟩
        = .ok ("an answer", ["a chunk"]) ∧
    ask_question_main "" ⟨none, none⟩ ⟨true, "an answer", [], "m"⟩
        = .error ⟨400, "No document has been uploaded yet"⟩ :=
  ⟨rfl, rfl⟩

/-- C1 (amended): in main.py, once both Session State fields are set, an
`ask` whose question strips to the empty string fails with the 422
validation error; the not-ready check precedes it, and the auth variant has
no emptiness check at all. -/
theorem C1_empty_question_validation (question : String) (st : SessionState)
    (env : AskEnv) (hv : st.vector_store ≠ none) (hq : st.qa_chain ≠ none)
    (he : pyStrip question = "") :
    ask_question_main question st env = .error ⟨422, "Question cannot be empty"⟩ := by
  have hA : ¬ (st.vector_store = none ∨ st.qa_chain = none) := by
    rintro (h | h)
    · exact hv h
    · exact hq h
  unfold ask_question_main
  rw [if_neg hA, if_pos he]

/-- C1 witness: concrete instance of the amended claim at question `"   "`
with a built index. -/
theorem C1_empty_question_validation_witness :
    ask_question_main "   " ⟨some 0, some 0⟩ ⟨true, "an answer", [], "m"⟩
        = .error ⟨422, "Question cannot be empty"⟩ :=
  C1_empty_question_validation "   " ⟨some 0, some 0⟩ ⟨true, "an answer", [], "m"⟩
    (by decide) (by decide) (by decide)

/-- C2 counterexample: the claim says a failed upload leaves the prior
(index, pipeline) pair untouched and an ask never observes a half-built
intermediate.  Concretely, with prior state (index 0, pipeline 0), an upload
of `doc.txt` whose pipeline construction fails (after the index build
succeeded) leaves state (index 1, pipeline 0): the new index with the old
pipeline, which is neither the prior pair (0, 0) nor the new pair (1, 2). -/
theorem C2_counterexample :
    (upload_file_main "doc.txt" ⟨true, true, true, false, "boom"⟩ ⟨some 0, some 0⟩ 1 2).state
        = ⟨some 1, some 0⟩ ∧
    ((⟨some 1, some 0⟩ : SessionState) ≠ ⟨some 0, some 0⟩) ∧
    ((⟨some 1, some 0⟩ : SessionState) ≠ ⟨some 1, some 2⟩) ∧
    (upload_file_main "doc.txt" ⟨true, true, true, false, "boom"⟩ ⟨some 0, some 0⟩ 1 2).response
        = .error ⟨500, "Internal Server Error: boom"⟩ :=
  ⟨rfl, by decide, by decide, rfl⟩

/-- C2 (amended): a failure at loader selection, extraction, chunking or
index build leaves the prior Session State untouched in both variants; but a
pipeline-construction failure occurring after the index build leaves a
half-built intermediate (the new index paired with the prior pipeline); a
fully successful upload installs the new pair. -/
theorem C2_session_state (filename : String) (env : UploadEnv) (st : SessionState)
    (ni nc : Nat) :
    ((env.extract_ok = false ∨ env.chunk_ok = false ∨ env.index_ok = false ∨
        (∃ e, get_loader_for_file ("uploads/" ++ filename) = .error e)) →
      (upload_file_main filename env st ni nc).state = st ∧
      (upload_file_mock filename env st ni nc).state = st) ∧
    ((∃ x, get_loader_for_file ("uploads/" ++ filename) = .ok x) →
      env.extract_ok = true → env.chunk_ok = true → env.index_ok = true →
      env.pipeline_ok = false →
      (upload_file_main filename env st ni nc).state = ⟨some ni, st.qa_chain⟩ ∧
      (upload_file_mock filename env st ni nc).state = ⟨some ni, st.qa_chain⟩) ∧
    ((∃ x, get_loader_for_file ("uploads/" ++ filename) = .ok x) →
      env.extract_ok = true → env.chunk_ok = true → env.index_ok = true →
      env.pipeline_ok = true →
      (upload_file_main filename env st ni nc).state = ⟨some ni, some nc⟩ ∧
      (upload_file_mock filename env st ni nc).state = ⟨some ni, some nc⟩) := by
  refine ⟨fun h => ⟨state_main_untouched filename env st ni nc h,
                    state_mock_untouched filename env st ni nc h⟩,
          fun hx he hc hi hp => ?_, fun hx he hc hi hp => ?_⟩
  · obtain ⟨x, hl⟩ := hx
    exact ⟨state_main_half_built filename env st ni nc x hl he hc hi hp,
           state_mock_half_built filename env st ni nc x hl he hc hi hp⟩
  · obtain ⟨x, hl⟩ := hx
    exact ⟨state_main_new_pair filename env st ni nc x hl he hc hi hp,
           state_mock_new_pair filename env st ni nc x hl he hc hi hp⟩

/-- C2 witness: concrete instances — a pipeline-construction failure turns
state (3, 4) into the half-built (7, 4), while an extraction failure leaves
(3, 4) untouched. -/
theorem C2_session_state_witness :
    (upload_file_main "a.txt" ⟨true, true, true, false, "m"⟩ ⟨some 3, some 4⟩ 7 8).state
        = ⟨some 7, some 4⟩ ∧
    (upload_file_main "a.txt" ⟨false, true, true, true, "m"⟩ ⟨some 3, some 4⟩ 7 8).state
        = ⟨some 3, some 4⟩ :=
  ⟨((C2_session_state "a.txt" ⟨true, true, true, false, "m"⟩ ⟨some 3, some 4⟩ 7 8).2.1
      ⟨Extractor.textExtractor, rfl⟩ rfl rfl rfl rfl).1,
   ((C2_session_state "a.txt" ⟨false, true, true, true, "m"⟩ ⟨some 3, some 4⟩ 7 8).1
      (Or.inl rfl)).1⟩

/-- C3 counterexample: the claim says an unsupported extension makes the
upload fail with a 400-equivalent error.  In the auth variant (Mock.py) the
unsupported-format ValueError is caught by the blanket `except Exception`
arm and mapped to 500, not 400, at the concrete filename `document.xyz`. -/
theorem C3_counterexample :
    (upload_file_mock "document.xyz" ⟨true, true, true, true, ""⟩ ⟨none, none⟩ 0 0).response
        = .error ⟨500, "Unsupported file format: xyz"⟩ :=
  rfl

/-- C3 (amended): for a filename containing a dot whose lowercased final
extension is outside {pdf, docx, doc, txt, csv}, the upload fails with an
"unsupported format" error naming the extension — with status 400 in
main.py but status 500 in the auth variant; extensions in the set select a
non-error extractor. -/
theorem C3_unsupported_extension (filename : String) (env : UploadEnv)
    (st : SessionState) (ni nc : Nat) (hdot : '.' ∈ filename.data) :
    (file_extension filename ∉ (["pdf", "docx", "doc", "txt", "csv"] : List String) →
      (upload_file_main filename env st ni nc).response
          = .error ⟨400, "Unsupported file format: " ++ file_extension filename⟩ ∧
      (upload_file_mock filename env st ni nc).response
          = .error ⟨500, "Unsupported file format: " ++ file_extension filename⟩) ∧
    (file_extension filename ∈ (["pdf", "docx", "doc", "txt", "csv"] : List String) →
      ∃ x, get_loader_for_file filename = .ok x) := by
  have hup : ('.' : Char) ∉ ("uploads/" : String).data := by decide
  have hext : file_extension ("uploads/" ++ filename) = file_extension filename :=
    file_extension_append "uploads/" filename hup hdot
  constructor
  · intro hbad
    simp only [List.mem_cons, List.mem_singleton, List.not_mem_nil] at hbad
    push_neg at hbad
    obtain ⟨h1, h2, h3, h4, h5, -⟩ := hbad
    have hloader : get_loader_for_file ("uploads/" ++ filename)
        = .error ("Unsupported file format: " ++ file_extension filename) := by
      unfold get_loader_for_file
      rw [hext, if_neg h1, if_neg (not_or.mpr ⟨h2, h3⟩), if_neg h4, if_neg h5]
    constructor
    · unfold upload_file_main
      rw [hloader]
      rfl
    · unfold upload_file_mock
      rw [hloader]
      rfl
  · intro hmem
    have h5 : file_extension filename = "pdf" ∨ file_extension filename = "docx" ∨
        file_extension filename = "doc" ∨ file_extension filename = "txt" ∨
        file_extension filename = "csv" := by simpa using hmem
    unfold get_loader_for_file
    rcases h5 with h | h | h | h | h <;> rw [h] <;> exact ⟨_, rfl⟩

/-- C3 witness: concrete instances — uploading `report.xyz` fails with 400
and the message naming `xyz` in main.py, and the selector accepts
`report.pdf`. -/
theorem C3_unsupported_extension_witness :
    (upload_file_main "report.xyz" ⟨true, true, true, true, "m"⟩ ⟨none, none⟩ 0 0).response
        = .error ⟨400, "Unsupported file format: " ++ file_extension "report.xyz"⟩ ∧
    (∃ x, get_loader_for_file "report.pdf" = .ok x) :=
  ⟨((C3_unsupported_extension "report.xyz" ⟨true, true, true, true, "m"⟩ ⟨none, none⟩ 0 0
      (by decide)).1 (by decide)).1,
   (C3_unsupported_extension "report.pdf" ⟨true, true, true, true, "m"⟩ ⟨none, none⟩ 0 0
      (by decide)).2 (by decide)⟩

/-- C4 counterexample: the claim says a token is returned exactly when the
username AND password match the user table.  In the code the password is
never inspected: logging in as `admin` with a password different from the
stored one still yields a bearer token. -/
theorem C4_counterexample :
    login "admin" "wrong-password" "token-abc" = .ok ⟨"token-abc", "bearer"⟩ ∧
    "wrong-password" ≠ "hashed_admin_password" :=
  ⟨rfl, by decide⟩

/-- C4 (amended): the login operation returns a bearer token exactly when
the username is present in the fixed in-memory user table; the password is
ignored entirely (its value never affects the result), and an unknown
username fails with 400. -/
theorem C4_login_ignores_password (username pw1 pw2 tok : String) :
    login username pw1 tok = login username pw2 tok ∧
    ((users_db.lookup username).isSome = true →
      login username pw1 tok = .ok ⟨tok, "bearer"⟩) ∧
    (users_db.lookup username = none →
      login username pw1 tok = .error ⟨400, "Incorrect username or password"⟩) := by
  refine ⟨rfl, ?_, ?_⟩
  · intro h
    unfold login
    cases hl : users_db.lookup username with
    | none => rw [hl] at h; cases h
    | some v => rfl
  · intro h
    unfold login
    rw [h]

/-- C4 witness: concrete instances — `admin` with an arbitrary password gets
a token; unknown user `eve` gets 400. -/
theorem C4_login_ignores_password_witness :
    login "admin" "letmein" "tok" = .ok ⟨"tok", "bearer"⟩ ∧
    login "eve" "letmein" "tok" = .error ⟨400, "Incorrect username or password"⟩ :=
  ⟨(C4_login_ignores_password "admin" "letmein" "x" "tok").2.1 (by decide),
   (C4_login_ignores_password "eve" "letmein" "x" "tok").2.2 (by decide)⟩

/-- C5: on every exit path of the upload operation — success, unsupported
extension, extraction error, chunking error, index-build error, pipeline
error — the staged temporary file is absent after the request completes, and
the cleanup step itself does not raise, in both variants. -/
theorem C5_temp_file_deleted (filename : String) (env : UploadEnv)
    (st : SessionState) (ni nc : Nat) :
    (upload_file_main filename env st ni nc).file_present = false ∧
    (upload_file_main filename env st ni nc).cleanup_raised = false ∧
    (upload_file_mock filename env st ni nc).file_present = false ∧
    (upload_file_mock filename env st ni nc).cleanup_raised = false := by
  obtain ⟨r1, s1, h1⟩ := exists_finishMain filename env st ni nc
  obtain ⟨r2, s2, h2⟩ := exists_finishMock filename env st ni nc
  rw [h1, h2]
  exact ⟨rfl, rfl, rfl, rfl⟩

/-- C6: with both Session State fields still unset (the initial state, i.e.
before any successful upload), every ask call fails with the 400
NotReadyError, whatever the question content or history, in both variants. -/
theorem C6_ask_before_upload (question : String)
    (chat_history : List (String × String)) (env : AskEnv) :
    ask_question_main question initial_state env
        = .error ⟨400, "No document has been uploaded yet"⟩ ∧
    ask_question_mock question chat_history initial_state env
        = .error ⟨400, "No document has been uploaded yet"⟩ := by
  constructor <;> simp [ask_question_main, ask_question_mock, initial_state]

/-- C7: every token-validation failure — decode failure (bad or
unverifiable signature, malformed or expired token), missing subject claim,
or subject not present in the user table — makes `get_current_user` return
an error with status 401. -/
theorem C7_auth_failures_401 (d : DecodeResult)
    (h : d = DecodeResult.decodeError ∨ d = DecodeResult.payload none ∨
         ∃ u, d = DecodeResult.payload (some u) ∧ users_db.lookup u = none) :
    isAuthError (get_current_user d) = true := by
  rcases h with h | h | ⟨u, h, hu⟩
  · subst h; rfl
  · subst h; rfl
  · subst h
    simp [get_current_user, hu, isAuthError]

/-- C7 witness: concrete instance at a token whose decoding fails. -/
theorem C7_auth_failures_401_witness :
    isAuthError (get_current_user DecodeResult.decodeError) = true :=
  C7_auth_failures_401 DecodeResult.decodeError (Or.inl rfl)

/-- C8 (code bug): the claim — and the comments and error messages of the
code itself — say the API key comes from external configuration and only its
absence aborts startup.  The code instead assigns the literal empty string
and never reads the environment, so the startup guard fails even when the
environment does supply a key, in both variants, for every environment. -/
theorem C8_startup_always_fatal :
    startup_main (some "sk-test-key") = .error "Please set a valid OpenAI API key" ∧
    startup_mock (some "sk-test-key")
        = .error "OPENAI_API_KEY environment variable is not set" ∧
    (∀ env_value, openai_api_key_main env_value = "" ∧
      openai_api_key_mock env_value = "") :=
  ⟨rfl, rfl, fun _ => ⟨rfl, rfl⟩⟩

/-- C10: for a filename containing no dot, `get_loader_for_file` treats the
entire lowercased filename as the extension: the computed extension is
exactly the lowercased filename, names in the supported set select the
corresponding extractor, and any other dotless name fails with an
unsupported-format error naming the whole lowercased filename. -/
theorem C10_dotless_filename (s : String) (hnd : '.' ∉ s.data) :
    file_extension s = String.mk (lowerChars s.data) ∧
    (file_extension s = "pdf" → get_loader_for_file s = .ok .pdfExtractor) ∧
    (file_extension s = "docx" ∨ file_extension s = "doc" →
      get_loader_for_file s = .ok .wordExtractor) ∧
    (file_extension s = "txt" → get_loader_for_file s = .ok .textExtractor) ∧
    (file_extension s = "csv" → get_loader_for_file s = .ok .csvExtractor) ∧
    (file_extension s ∉ (["pdf", "docx", "doc", "txt", "csv"] : List String) →
      get_loader_for_file s = .error ("Unsupported file format: " ++ file_extension s)) := by
  refine ⟨file_extension_no_dot s hnd, ?_, ?_, ?_, ?_, ?_⟩
  · intro h
    unfold get_loader_for_file
    rw [h]
    rfl
  · intro h
    unfold get_loader_for_file
    rcases h with h | h <;> rw [h] <;> rfl
  · intro h
    unfold get_loader_for_file
    rw [h]
    rfl
  · intro h
    unfold get_loader_for_file
    rw [h]
    rfl
  · intro hbad
    simp only [List.mem_cons, List.mem_singleton, List.not_mem_nil] at hbad
    push_neg at hbad
    obtain ⟨h1, h2, h3, h4, h5, -⟩ := hbad
    unfold get_loader_for_file
    rw [if_neg h1, if_neg (not_or.mpr ⟨h2, h3⟩), if_neg h4, if_neg h5]

/-- C10 witness: concrete instances — the dotless filename `pdf` selects the
PDF extractor, and the dotless filename `README` fails with an error naming
its lowercased whole name as the extension. -/
theorem C10_dotless_filename_witness :
    get_loader_for_file "pdf" = .ok Extractor.pdfExtractor ∧
    get_loader_for_file "README"
        = .error ("Unsupported file format: " ++ file_extension "README") ∧
    file_extension "README" = "readme" :=
  ⟨(C10_dotless_filename "pdf" (by decide)).2.1 (by decide),
   (C10_dotless_filename "README" (by decide)).2.2.2.2.2 (by decide),
   by decide⟩
